import Mathlib

/-!
# Verification of the imr-monthly-report core

Shallow embedding of the dual-period Cerberus extraction pipeline and its
forecasting arithmetic, translated from:

* `lib/services/cerberus-scraper.ts` (currency parsing, months-elapsed,
  session validation, IMR-goal / YTD-spend extraction, the Compute step of
  `scrapeCerebusComplete`);
* `lib/services/forecast-calculator.ts` (burn rate, EOY forecast, budget
  variance, fleet aggregation);
* `scripts/test-cerberus-complete.js` (the batch loop of
  `testCerebusScraping`);
* `scripts/test-scraper-actual.js` (`parseCurrency`).

JavaScript numbers are modelled as exact rationals (`ℚ`); the single
non-finite value the code can produce, `NaN` (from `parseFloat` on a
non-numeric string, propagated through `*`), is modelled by `Option ℚ`
with `none` standing for `NaN`.  IEEE-754 rounding, `Infinity` and the
`"Infinity"` literal branch of `parseFloat` are outside the modelled
domain; every string the dashboard produces and every input used below is
a finite decimal literal.
-/

/- ## JS string & number primitives -/

/-- Model of JS `String.prototype.trim` (used via `textContent?.trim()`):
drop whitespace from both ends. -/
def jsTrim (s : String) : String :=
  String.mk (((s.data.dropWhile Char.isWhitespace).reverse.dropWhile
      Char.isWhitespace).reverse)

/-- Numeric value of a list of decimal digit characters, most significant
first (the usual positional reading used by `parseFloat`). -/
def digitsToNat (ds : List Char) : ℕ :=
  ds.foldl (fun a c => 10 * a + (c.toNat - 48)) 0

/-- The decimal literal recognised by JS `parseFloat` as the longest valid
prefix of its input: sign, integer digits, fractional digits (with their
count, to recover the scale), and an optional exponent. -/
structure FloatLit where
  neg : Bool
  intVal : ℕ
  fracVal : ℕ
  fracLen : ℕ
  expNeg : Bool
  expVal : ℕ
deriving DecidableEq

/-- Exponent tail of a `parseFloat` literal: optional sign then digits; if
no digits follow, the exponent marker is not consumed and contributes
nothing (JS `parseFloat("1e") == 1`). -/
def expTail (cs : List Char) : Bool × ℕ :=
  let p := match cs with
    | '-' :: r2 => (true, r2)
    | '+' :: r2 => (false, r2)
    | _ => (false, cs)
  let ds := p.2.takeWhile Char.isDigit
  if ds.isEmpty then (false, 0) else (p.1, digitsToNat ds)

/-- Optional `e`/`E` exponent part after the mantissa. -/
def expOf (cs : List Char) : Bool × ℕ :=
  match cs with
  | 'e' :: r => expTail r
  | 'E' :: r => expTail r
  | _ => (false, 0)

/-- Syntactic part of JS `parseFloat`: longest numeric prefix after
skipping leading whitespace; `none` when no prefix parses (JS `NaN`). -/
def jsParseFloatSyn (cs0 : List Char) : Option FloatLit :=
  let cs := cs0.dropWhile Char.isWhitespace
  let neg := match cs with | '-' :: _ => true | _ => false
  let cs1 := match cs with
    | '-' :: r => r
    | '+' :: r => r
    | _ => cs
  let intDs := cs1.takeWhile Char.isDigit
  let cs2 := cs1.dropWhile Char.isDigit
  let hasDot := match cs2 with | '.' :: _ => true | _ => false
  let afterDot := match cs2 with | '.' :: r => r | _ => cs2
  let fracDs := if hasDot then afterDot.takeWhile Char.isDigit else []
  let cs3 := if hasDot then afterDot.dropWhile Char.isDigit else cs2
  if intDs.isEmpty && fracDs.isEmpty then none
  else
    let e := expOf cs3
    some ⟨neg, digitsToNat intDs, digitsToNat fracDs, fracDs.length, e.1, e.2⟩

/-- Rational value of a recognised `parseFloat` literal. -/
def FloatLit.toRat (f : FloatLit) : ℚ :=
  let mantissa : ℚ := (f.intVal : ℚ) + (f.fracVal : ℚ) / 10 ^ f.fracLen
  let signed : ℚ := if f.neg then -mantissa else mantissa
  if f.expNeg then signed / 10 ^ f.expVal else signed * 10 ^ f.expVal

/-- Model of JS `parseFloat` on finite decimal input; `none` is `NaN`. -/
def jsParseFloat (s : String) : Option ℚ :=
  (jsParseFloatSyn s.data).map FloatLit.toRat

/-- JS `*` with `NaN` propagation (`NaN * x == NaN`). -/
def jsMul (a b : Option ℚ) : Option ℚ :=
  match a, b with
  | some x, some y => some (x * y)
  | _, _ => none

/-- JS `x || 0` applied to a parse result: `NaN` (falsy) becomes `0`;
`0` stays `0`; every other number is truthy and kept. -/
def jsOrZero (a : Option ℚ) : ℚ :=
  match a with
  | some x => x
  | none => 0

/- ## Currency Parser
`parseCurrencyAmount`, cerberus-scraper.ts lines 347-373. -/

/-- `value.replace(/[$,\s]/g, '')`: strip dollar signs, commas and
whitespace. -/
def stripCurrencyChars (value : String) : List Char :=
  value.data.filter fun c => !(c == '$' || c == ',' || c.isWhitespace)

/-- `cleaned.toUpperCase().endsWith('MM')`. -/
def hasMMSuffix (cs : List Char) : Bool :=
  match (cs.map Char.toUpper).reverse with
  | 'M' :: 'M' :: _ => true
  | _ => false

/-- The `multipliers` lookup table: `K → 10^3`, `M → 10^6`, `B → 10^9`. -/
def multiplierFor (c : Char) : Option ℚ :=
  if c == 'K' then some 1000
  else if c == 'M' then some 1000000
  else if c == 'B' then some 1000000000
  else none

/-- `multipliers[cleaned.slice(-1).toUpperCase()]`; `none` when the string
is empty or the last character is not a recognised suffix. -/
def suffixMultiplier (cs : List Char) : Option ℚ :=
  match cs.getLast? with
  | some c => multiplierFor c.toUpper
  | none => none

/-- `parseCurrencyAmount` (cerberus-scraper.ts 347-373): empty input is
falsy and yields `0`; otherwise strip `$`, `,` and whitespace; an `MM`
suffix (checked before the single-letter table, so `MM` is never read as
`M`) multiplies the parsed remainder by `10^6`; a trailing `K`/`M`/`B`
multiplies by its table entry; with no suffix the result is
`parseFloat(cleaned) || 0`.  In the two suffix branches the source has no
`|| 0`, so a `NaN` from `parseFloat` propagates (modelled as `none`). -/
def parseCurrencyAmount (value : String) : Option ℚ :=
  if value = "" then some 0
  else
    let cleaned := stripCurrencyChars value
    if hasMMSuffix cleaned then
      jsMul (jsParseFloat (String.mk cleaned.dropLast.dropLast)) (some 1000000)
    else
      match suffixMultiplier cleaned with
      | some m => jsMul (jsParseFloat (String.mk cleaned.dropLast)) (some m)
      | none => some (jsOrZero (jsParseFloat (String.mk cleaned)))

/-- `parseCurrency` (test-scraper-actual.js 35-55) is character-for-
character the same algorithm as `parseCurrencyAmount`; it is embedded as
the same function. -/
def parseCurrency (value : String) : Option ℚ :=
  parseCurrencyAmount value

/- ## Fiscal Calendar
`calculateMonthsElapsed`, cerberus-scraper.ts 515-538.  The source reads
`new Date()` internally and derives `currentMonth = today.getMonth() + 1`
(1..12); the embedding takes that calendar month as the explicit
parameter.  The `fiscalYear` argument of the source function is unused by
its body and is omitted. -/

/-- `calculateMonthsElapsed`: the report covers the previous calendar
month, so `reportingMonth = currentMonth - 1`, with January (`currentMonth
= 1`) wrapping to 12 (December of the prior year). -/
def calculateMonthsElapsed (currentMonth : ℕ) : ℕ :=
  let reportingMonth := currentMonth - 1
  if reportingMonth = 0 then 12 else reportingMonth

/- ## Forecast Engine
forecast-calculator.ts.  `currentDate` enters these functions only through
`getFiscalYear`/`getDaysElapsed`/`getDaysInFiscalYear` (date-utils.ts);
the embedding takes the two resulting day counts as explicit parameters. -/

/-- `calculateAverageDailyBurnRate` (forecast-calculator.ts 85-97):
`ytdSpend / daysElapsed`, guarded to `0` when no days have elapsed. -/
def calculateAverageDailyBurnRate (ytdSpend : ℚ) (daysElapsed : ℕ) : ℚ :=
  if daysElapsed = 0 then 0 else ytdSpend / daysElapsed

/-- `forecastEOYSpend` (forecast-calculator.ts 103-117): zero burn rate
falls back to the YTD spend, otherwise `burnRate * totalDaysInYear`. -/
def forecastEOYSpend (ytdSpend burnRate : ℚ) (totalDaysInYear : ℕ) : ℚ :=
  if burnRate = 0 then ytdSpend else burnRate * totalDaysInYear

/-- Result record of `calculateBudgetVariance`. -/
structure BudgetVariance where
  variance : ℚ
  variancePercentage : ℚ
  isOverBudget : Bool
deriving DecidableEq

/-- `calculateBudgetVariance` (forecast-calculator.ts 123-140):
`variance = forecastedEOYSpend - budget`, percentage guarded on
`budget > 0`, `isOverBudget = variance > 0`. -/
def calculateBudgetVariance (budget forecastedEOYSpend : ℚ) : BudgetVariance :=
  let variance := forecastedEOYSpend - budget
  let variancePercentage := if budget > 0 then variance / budget * 100 else 0
  ⟨variance, variancePercentage, decide (variance > 0)⟩

/-- `MonthlyBurnRate` (lib/types): per-month spend and daily burn rate,
keyed by the `YYYY-MM` month string. -/
structure MonthlyBurnRate where
  month : String
  monthName : String
  totalSpend : ℚ
  daysInMonth : ℕ
  dailyBurnRate : ℚ
deriving DecidableEq

/-- `ForecastResult` (lib/types), restricted to the fields the claims and
`aggregateFleetData` read or write.  The `fiscalYearStart`/`fiscalYearEnd`
`Date` fields and the recursive `subFleets` list (set by the aggregate,
never read) are omitted. -/
structure ForecastResult where
  fleetId : String
  fleetName : String
  budget : ℚ
  ytdSpend : ℚ
  avgDailyBurnRate : ℚ
  monthlyBurnRates : List MonthlyBurnRate
  forecastedEOYSpend : ℚ
  variance : ℚ
  variancePercentage : ℚ
  isOverBudget : Bool
  daysInFiscalYear : ℕ
  daysElapsed : ℕ
deriving DecidableEq

/-- One `monthlyBurnRatesMap.set` step of `aggregateFleetData`: merging
into the month-keyed map sums `totalSpend` and `dailyBurnRate`, keeping
the first-seen `monthName`/`daysInMonth`; a new key is appended
(JS `Map` preserves insertion order). -/
def mbrMapSet (acc : List MonthlyBurnRate) (mbr : MonthlyBurnRate) :
    List MonthlyBurnRate :=
  if acc.any fun e => e.month = mbr.month then
    acc.map fun e =>
      if e.month = mbr.month then
        { e with totalSpend := e.totalSpend + mbr.totalSpend,
                 dailyBurnRate := e.dailyBurnRate + mbr.dailyBurnRate }
      else e
  else acc ++ [mbr]

/-- Insertion step for the final `sort((a, b) => a.month.localeCompare(b.month))`;
month keys are `YYYY-MM` strings, where `localeCompare` agrees with
lexicographic order, and keys are unique after merging. -/
def insertByMonth (m : MonthlyBurnRate) : List MonthlyBurnRate → List MonthlyBurnRate
  | [] => [m]
  | x :: xs => if m.month ≤ x.month then m :: x :: xs else x :: insertByMonth m xs

/-- Ascending sort by month key. -/
def sortByMonth : List MonthlyBurnRate → List MonthlyBurnRate
  | [] => []
  | x :: xs => insertByMonth x (sortByMonth xs)

/-- Lines 219-237 of `aggregateFleetData`: merge every fleet's monthly
burn rates into the month-keyed map, then sort by month. -/
def aggregateMonthlyBurnRates (fleets : List ForecastResult) : List MonthlyBurnRate :=
  sortByMonth (fleets.foldl (fun m f => f.monthlyBurnRates.foldl mbrMapSet m) [])

/-- `aggregateFleetData` (forecast-calculator.ts 196-252): with no
sub-fleets the main fleet is returned unchanged; otherwise `budget` and
`ytdSpend` are summed over main fleet and sub-fleets and the burn rate,
EOY forecast and variance are recomputed from the summed totals.  The
source's `new Date()` at the recomputation site enters only through the
two day counts, taken here as parameters. -/
def aggregateFleetData (mainFleet : ForecastResult) (subFleets : List ForecastResult)
    (daysElapsedNow daysInYearNow : ℕ) : ForecastResult :=
  if subFleets.isEmpty then mainFleet
  else
    let totalBudget := mainFleet.budget + subFleets.foldl (fun sum sf => sum + sf.budget) 0
    let totalYTDSpend := mainFleet.ytdSpend + subFleets.foldl (fun sum sf => sum + sf.ytdSpend) 0
    let avgDailyBurnRate := calculateAverageDailyBurnRate totalYTDSpend daysElapsedNow
    let fce := forecastEOYSpend totalYTDSpend avgDailyBurnRate daysInYearNow
    let bv := calculateBudgetVariance totalBudget fce
    { mainFleet with
        budget := totalBudget
        ytdSpend := totalYTDSpend
        avgDailyBurnRate := avgDailyBurnRate
        monthlyBurnRates := aggregateMonthlyBurnRates (mainFleet :: subFleets)
        forecastedEOYSpend := fce
        variance := bv.variance
        variancePercentage := bv.variancePercentage
        isOverBudget := bv.isOverBudget }

/- ## Extraction Driver - Compute step and field extraction
cerberus-scraper.ts 444-506 and 584-638. -/

/-- The calculated-metrics block of `CerebusCompleteData`.  The identity
fields (`fleetId`, `fleetName`, `fiscalYear`, `ytdPeriodEnd`) are carried
through unmodified by the Compute step and are omitted here.
`variancePercent` and `percentComplete` divide by `imrGoal` with no
guard; the source guarantees `imrGoal ≠ 0` at this site because
`extractIMRGoal` throws on a zero parse (ℚ division by zero is never
exercised on the source's reachable inputs). -/
structure CerebusMetrics where
  monthsElapsed : ℕ
  monthsRemaining : ℕ
  monthlyBurnRate : ℚ
  projectedEOY : ℚ
  variance : ℚ
  variancePercent : ℚ
  percentComplete : ℚ
  isOverBudget : Bool
deriving DecidableEq

/-- The Compute step of `scrapeCerebusComplete` (cerberus-scraper.ts
595-615): burn rate `ytdSpend / monthsElapsed`, projection `* 12`,
`variance = imrGoal - projectedEOY`, `isOverBudget = projectedEOY >
imrGoal`.  `monthsElapsed` is the value of `calculateMonthsElapsed` at
call time. -/
def cerebusComputeMetrics (imrGoal ytdSpend : ℚ) (monthsElapsed : ℕ) :
    CerebusMetrics :=
  let monthsRemaining := 12 - monthsElapsed
  let monthlyBurnRate := ytdSpend / monthsElapsed
  let projectedEOY := monthlyBurnRate * 12
  let variance := imrGoal - projectedEOY
  let variancePercent := variance / imrGoal * 100
  let percentComplete := ytdSpend / imrGoal * 100
  ⟨monthsElapsed, monthsRemaining, monthlyBurnRate, projectedEOY,
    variance, variancePercent, percentComplete, decide (projectedEOY > imrGoal)⟩

/-- `extractIMRGoal` (cerberus-scraper.ts 444-472), as a function of the
text contents of the `.awsui-key-children` elements: fewer than 2
elements throws; an empty (trimmed) text at index 1 throws; a parse
result of exactly `0` throws (`NaN` is not `=== 0` and passes through);
otherwise the parsed amount is returned. -/
def extractIMRGoal (texts : List String) : Except String (Option ℚ) :=
  if texts.length < 2 then
    Except.error "Expected at least 2 .awsui-key-children elements"
  else
    let imrGoalText := jsTrim (texts.getD 1 "")
    if imrGoalText = "" then Except.error "IMR Goal text is empty"
    else
      let imrGoal := parseCurrencyAmount imrGoalText
      if imrGoal = some 0 then Except.error "Failed to parse IMR Goal"
      else Except.ok imrGoal

/-- `extractYTDSpend` (cerberus-scraper.ts 478-506), as a function of the
text contents of the `.mus-cell-right-aligned` elements: fewer than 2
elements throws; an empty (trimmed) text at index 1 throws; a parse
result of exactly `0` is returned with a warning (the `Bool` component),
not raised. -/
def extractYTDSpend (texts : List String) : Except String (Option ℚ × Bool) :=
  if texts.length < 2 then
    Except.error "Expected at least 2 .mus-cell-right-aligned elements"
  else
    let ytdSpendText := jsTrim (texts.getD 1 "")
    if ytdSpendText = "" then Except.error "YTD Spend text is empty"
    else
      let ytdSpend := parseCurrencyAmount ytdSpendText
      if ytdSpend = some 0 then Except.ok (ytdSpend, true)
      else Except.ok (ytdSpend, false)

/- ## Session Store
`isLoggedIn` (cerberus-scraper.ts 183-237) and `ensureAuthenticated`
(269-319).  Timestamps are epoch milliseconds (`Date.now()`), modelled as
ℤ.  The timestamp file `.browser-session/.last-validated` is the state:
`none` when absent or unreadable. -/

/-- Outcome of the navigation-and-probe performed inside `isLoggedIn`:
either `page.goto`/probing threw (network error), or the page rendered
and the two indicator families were or were not found. -/
inductive NavOutcome where
  | threw
  | page (cerberusElementFound : Bool) (loginFormFound : Bool)
deriving DecidableEq

/-- `isLoggedIn`: any Cerberus-only element means logged in; otherwise a
login-form element means logged out; otherwise assume logged out.  The
whole body is wrapped in `try/catch`: a thrown navigation error is caught,
logged, and reported as `false` - it never escapes. -/
def isLoggedIn (nav : NavOutcome) : Bool :=
  match nav with
  | NavOutcome.threw => false
  | NavOutcome.page c l => if c then true else if l then false else false

/-- `SESSION_VALIDITY_HOURS = 12` (cerberus-scraper.ts 275). -/
def sessionValidityHours : ℚ := 12

/-- The freshness test of `ensureAuthenticated` (279-286):
`(Date.now() - lastValidated) / (1000*60*60) < SESSION_VALIDITY_HOURS`,
when a stored timestamp could be read at all. -/
def sessionIsFresh (st : Option ℤ) (now : ℤ) : Bool :=
  match st with
  | some t => decide (((now - t : ℤ) : ℚ) / (1000 * 60 * 60) < sessionValidityHours)
  | none => false

/-- Observable result of one `ensureAuthenticated` call: the timestamp
file contents afterwards, how many external login checks (`isLoggedIn`
calls, each issuing a navigation) were made, and whether the manual-login
prompt was shown. -/
structure AuthTrace where
  lastValidated : Option ℤ
  loginChecks : ℕ
  manualLoginPrompted : Bool
deriving DecidableEq

/-- `ensureAuthenticated` (cerberus-scraper.ts 269-319): a fresh stored
timestamp short-circuits with no login check; otherwise one `isLoggedIn`
check runs, and on either outcome (already logged in, or manual login
completed) a fresh timestamp is written.  The result is `Except` because
the claim set asks whether an error can propagate; no branch of the
source reaches an uncaught throw (`isLoggedIn` catches internally,
timestamp-write failures are caught and logged), so every path returns
`Except.ok`. -/
def ensureAuthenticated (st : Option ℤ) (now : ℤ) (nav : NavOutcome) :
    Except String AuthTrace :=
  if sessionIsFresh st now then Except.ok ⟨st, 0, false⟩
  else if isLoggedIn nav then Except.ok ⟨some now, 1, false⟩
  else Except.ok ⟨some now, 1, true⟩

/- ## Batch Orchestrator
`testCerebusScraping`, test-cerberus-complete.js 237-340. -/

/-- The fields of a successful per-fleet result entry that come from the
scraped data (`fleetName`, `imrGoal`, `ytdSpend`, `projectedEOY`,
`variance`, `isOverBudget`); the wall-clock `duration` field is omitted. -/
structure FleetScrapeData where
  fleetName : String
  imrGoal : ℚ
  ytdSpend : ℚ
  projectedEOY : ℚ
  variance : ℚ
  isOverBudget : Bool
deriving DecidableEq

/-- One entry of the `results` array: `{..., success: true, ...}` or
`{fleetId, success: false, error}`. -/
inductive BatchEntry where
  | success (fleetId : String) (data : FleetScrapeData)
  | failure (fleetId : String) (error : String)
deriving DecidableEq

/-- `!r.success` as used by the summary filters. -/
def BatchEntry.isFailure : BatchEntry → Bool
  | BatchEntry.success _ _ => false
  | BatchEntry.failure _ _ => true

/-- The try/catch body of one loop iteration: a successful
`scrapeCerebusComplete` pushes a success entry, a thrown error is caught
and pushed as that fleet's failure entry. -/
def batchEntryFor (scrape : String → Except String FleetScrapeData)
    (fleetId : String) : BatchEntry :=
  match scrape fleetId with
  | Except.ok d => BatchEntry.success fleetId d
  | Except.error e => BatchEntry.failure fleetId e

/-- `testCerebusScraping`: iterate the fleet ids in order, pushing one
entry each (the inter-fleet delay has no observable effect on the
result); then `failCount = results.filter(r => !r.success).length` and
`process.exit(failCount > 0 ? 1 : 0)`.  Returns (results, exit code). -/
def testCerebusScraping (fleetIds : List String)
    (scrape : String → Except String FleetScrapeData) : List BatchEntry × ℕ :=
  let results := fleetIds.foldl (fun acc id => acc ++ [batchEntryFor scrape id]) []
  let failCount := (results.filter fun r => r.isFailure).length
  (results, if failCount > 0 then 1 else 0)

/- ## Claims -/

/-- C2.  For every now-date with calendar month 1..12, the months-elapsed
value used for burn-rate computation is `month - 1` for February..December
and 12 for January, hence always in [1, 12] and never 0. -/
theorem monthsElapsed_spec (m : ℕ) (h1 : 1 ≤ m) (h2 : m ≤ 12) :
    (m = 1 → calculateMonthsElapsed m = 12)
    ∧ (2 ≤ m → calculateMonthsElapsed m = m - 1)
    ∧ 1 ≤ calculateMonthsElapsed m ∧ calculateMonthsElapsed m ≤ 12 := by
  simp only [calculateMonthsElapsed]
  refine ⟨fun hm => ?_, fun hm => ?_, ?_, ?_⟩ <;> split <;> omega

/-- Witness for C2: the theorem applied at January (month 1) and March
(month 3). -/
theorem monthsElapsed_spec_witness :
    ((1 = 1 → calculateMonthsElapsed 1 = 12)
      ∧ (2 ≤ 1 → calculateMonthsElapsed 1 = 1 - 1)
      ∧ 1 ≤ calculateMonthsElapsed 1 ∧ calculateMonthsElapsed 1 ≤ 12)
    ∧ ((3 = 1 → calculateMonthsElapsed 3 = 12)
      ∧ (2 ≤ 3 → calculateMonthsElapsed 3 = 3 - 1)
      ∧ 1 ≤ calculateMonthsElapsed 3 ∧ calculateMonthsElapsed 3 ≤ 12) :=
  ⟨monthsElapsed_spec 1 (by decide) (by decide),
   monthsElapsed_spec 3 (by decide) (by decide)⟩

/-- C5.  At `monthsElapsed = 12` the projected end-of-year spend of the
scraper's Compute step, `(ytdSpend / 12) * 12`, equals `ytdSpend`
exactly (arithmetic is exact over ℚ in this embedding). -/
theorem projectedEOY_at_12_eq_ytd (imrGoal ytdSpend : ℚ) :
    (cerebusComputeMetrics imrGoal ytdSpend 12).projectedEOY = ytdSpend := by
  simp only [cerebusComputeMetrics, Nat.cast_ofNat]
  exact div_mul_cancel₀ ytdSpend (by norm_num)

/-- C1, counterexample.  At `imrGoal = 2360000`, `ytdSpend = 150900`,
`monthsElapsed = 12`, the Compute step of `scrapeCerebusComplete` has
`variance = 2209100`, not `projectedEOY - imrGoal = -2209100`: the
claimed sign convention does not hold at this computation site. -/
theorem variance_sign_claim_cex :
    ¬((cerebusComputeMetrics 2360000 150900 12).variance
        = (cerebusComputeMetrics 2360000 150900 12).projectedEOY - 2360000
      ∧ ((cerebusComputeMetrics 2360000 150900 12).isOverBudget = true
          ↔ 0 < (cerebusComputeMetrics 2360000 150900 12).variance)) := by
  intro h
  obtain ⟨h1, h2⟩ := h
  simp only [cerebusComputeMetrics, Nat.cast_ofNat] at h1
  norm_num at h1

/-- C1, amended.  The Forecast Engine's `calculateBudgetVariance` uses
`variance = forecastedEOYSpend - budget` with `isOverBudget ↔ variance >
0`; the Extraction Driver's Compute step uses the opposite sign,
`variance = imrGoal - projectedEOY`, with `isOverBudget ↔ projectedEOY >
imrGoal` (equivalently `variance < 0` there): the sign convention is not
uniform across the two sites, though `isOverBudget` itself means
`projectedEOY > imrGoal` at both. -/
theorem variance_sign_per_site (budget forecast imrGoal ytdSpend : ℚ) (m : ℕ) :
    (calculateBudgetVariance budget forecast).variance = forecast - budget
    ∧ ((calculateBudgetVariance budget forecast).isOverBudget = true
        ↔ 0 < (calculateBudgetVariance budget forecast).variance)
    ∧ (cerebusComputeMetrics imrGoal ytdSpend m).variance
        = imrGoal - (cerebusComputeMetrics imrGoal ytdSpend m).projectedEOY
    ∧ ((cerebusComputeMetrics imrGoal ytdSpend m).isOverBudget = true
        ↔ imrGoal < (cerebusComputeMetrics imrGoal ytdSpend m).projectedEOY) := by
  simp [calculateBudgetVariance, cerebusComputeMetrics, decide_eq_true_eq,
    sub_pos]

/-- C3.  The currency parser maps each listed input to the listed value:
`$2.36MM → 2360000`, `$150.9K → 150900`, `$1.2B → 1200000000`, and `-`,
`N/A` and the empty string to `0`; the `MM` test runs before the
single-letter table, so `MM` is never read as `M`.  Stated for both
`parseCurrencyAmount` (cerberus-scraper.ts) and `parseCurrency`
(test-scraper-actual.js). -/
theorem parseCurrency_examples :
    parseCurrencyAmount "$2.36MM" = some 2360000
    ∧ parseCurrencyAmount "$150.9K" = some 150900
    ∧ parseCurrencyAmount "$1.2B" = some 1200000000
    ∧ parseCurrencyAmount "-" = some 0
    ∧ parseCurrencyAmount "N/A" = some 0
    ∧ parseCurrencyAmount "" = some 0
    ∧ parseCurrency "$2.36MM" = some 2360000
    ∧ parseCurrency "$150.9K" = some 150900
    ∧ parseCurrency "$1.2B" = some 1200000000
    ∧ parseCurrency "-" = some 0
    ∧ parseCurrency "N/A" = some 0
    ∧ parseCurrency "" = some 0 := by
  have hMM : parseCurrencyAmount "$2.36MM" = some 2360000 := by
    have h : parseCurrencyAmount "$2.36MM"
        = jsMul (jsParseFloat (String.mk
            (stripCurrencyChars "$2.36MM").dropLast.dropLast)) (some 1000000) := rfl
    have hsyn : jsParseFloatSyn (String.mk
        (stripCurrencyChars "$2.36MM").dropLast.dropLast).data
        = some ⟨false, 2, 36, 2, false, 0⟩ := by decide
    rw [h, jsParseFloat, hsyn]
    simp [jsMul, FloatLit.toRat]
    norm_num
  have hK : parseCurrencyAmount "$150.9K" = some 150900 := by
    have h : parseCurrencyAmount "$150.9K"
        = jsMul (jsParseFloat (String.mk
            (stripCurrencyChars "$150.9K").dropLast)) (some 1000) := rfl
    have hsyn : jsParseFloatSyn (String.mk
        (stripCurrencyChars "$150.9K").dropLast).data
        = some ⟨false, 150, 9, 1, false, 0⟩ := by decide
    rw [h, jsParseFloat, hsyn]
    simp [jsMul, FloatLit.toRat]
    norm_num
  have hB : parseCurrencyAmount "$1.2B" = some 1200000000 := by
    have h : parseCurrencyAmount "$1.2B"
        = jsMul (jsParseFloat (String.mk
            (stripCurrencyChars "$1.2B").dropLast)) (some 1000000000) := rfl
    have hsyn : jsParseFloatSyn (String.mk
        (stripCurrencyChars "$1.2B").dropLast).data
        = some ⟨false, 1, 2, 1, false, 0⟩ := by decide
    rw [h, jsParseFloat, hsyn]
    simp [jsMul, FloatLit.toRat]
    norm_num
  have hDash : parseCurrencyAmount "-" = some 0 := by decide
  have hNA : parseCurrencyAmount "N/A" = some 0 := by decide
  have hEmpty : parseCurrencyAmount "" = some 0 := by decide
  exact ⟨hMM, hK, hB, hDash, hNA, hEmpty, hMM, hK, hB, hDash, hNA, hEmpty⟩

/-- C4, counterexample.  `"abcMM"` has a recognised suffix (`MM`) and a
non-numeric remainder (`"abc"`); the parser returns `NaN` (modelled
`none`), not `0`: the suffix branches have no `|| 0` coercion. -/
theorem parse_fail_soft_cex :
    parseCurrencyAmount "abcMM" ≠ some 0 ∧ parseCurrencyAmount "abcMM" = none := by
  decide

/-- C4, amended.  With no recognised suffix, a non-numeric remainder is
coerced to `0` by the final `parseFloat(cleaned) || 0`; but when an `MM`
or single-letter (`K`/`M`/`B`) suffix is recognised, a non-numeric
remainder produces `NaN` (`none`), which propagates instead of `0`. -/
theorem parse_fail_soft_amended (s : String) :
    (hasMMSuffix (stripCurrencyChars s) = false →
      suffixMultiplier (stripCurrencyChars s) = none →
      jsParseFloat (String.mk (stripCurrencyChars s)) = none →
      parseCurrencyAmount s = some 0)
    ∧ (hasMMSuffix (stripCurrencyChars s) = true →
      jsParseFloat (String.mk (stripCurrencyChars s).dropLast.dropLast) = none →
      parseCurrencyAmount s = none)
    ∧ (∀ m : ℚ, hasMMSuffix (stripCurrencyChars s) = false →
      suffixMultiplier (stripCurrencyChars s) = some m →
      jsParseFloat (String.mk (stripCurrencyChars s).dropLast) = none →
      parseCurrencyAmount s = none) := by
  by_cases hs : s = ""
  · subst hs
    refine ⟨fun _ _ _ => rfl, fun h _ => absurd h (by decide), fun m _ h2 _ => ?_⟩
    rw [(by decide : suffixMultiplier (stripCurrencyChars "") = none)] at h2
    exact Option.noConfusion h2
  · refine ⟨fun h1 h2 h3 => ?_, fun h1 h2 => ?_, fun m h1 h2 h3 => ?_⟩
    · simp only [parseCurrencyAmount, if_neg hs, h1, h2, h3, Bool.false_eq_true,
        if_false, jsOrZero]
    · simp only [parseCurrencyAmount, if_neg hs, h1, h2, if_true, jsMul]
    · simp only [parseCurrencyAmount, if_neg hs, h1, h2, h3, Bool.false_eq_true,
        if_false, jsMul]

/-- Witness for C4 (amended): the theorem applied at `"zzz"` (no suffix,
non-numeric: `0`), `"abcMM"` (`MM` suffix: `NaN`) and `"qK"` (`K` suffix:
`NaN`). -/
theorem parse_fail_soft_amended_witness :
    parseCurrencyAmount "zzz" = some 0
    ∧ parseCurrencyAmount "abcMM" = none
    ∧ parseCurrencyAmount "qK" = none :=
  ⟨(parse_fail_soft_amended "zzz").1 (by decide) (by decide) (by decide),
   (parse_fail_soft_amended "abcMM").2.1 (by decide) (by decide),
   (parse_fail_soft_amended "qK").2.2 1000 (by decide) (by decide) (by decide)⟩

/-- Left fold of pointwise addition over any starting accumulator is the
accumulator plus the sum of the mapped list (shape of the JS `reduce`
calls in `aggregateFleetData`). -/
lemma foldl_add_eq_sum_map {α : Type} (f : α → ℚ) :
    ∀ (l : List α) (init : ℚ),
      l.foldl (fun a x => a + f x) init = init + (l.map f).sum
  | [], init => by simp
  | x :: xs, init => by
    simp only [List.foldl_cons, List.map_cons, List.sum_cons,
      foldl_add_eq_sum_map f xs (init + f x)]
    ring

/-- C6.  With a non-empty sub-fleet list, the aggregate's `budget` and
`ytdSpend` are the sums over the main fleet and all sub-fleets, and its
`forecastedEOYSpend` is the forecast recomputed (burn rate then EOY
projection) from those summed totals - not the sum of the constituents'
individual forecasts. -/
theorem aggregate_recomputes_from_totals
    (mainFleet : ForecastResult) (subFleets : List ForecastResult)
    (dE dY : ℕ) (h : subFleets ≠ []) :
    (aggregateFleetData mainFleet subFleets dE dY).budget
        = mainFleet.budget + (subFleets.map fun sf => sf.budget).sum
    ∧ (aggregateFleetData mainFleet subFleets dE dY).ytdSpend
        = mainFleet.ytdSpend + (subFleets.map fun sf => sf.ytdSpend).sum
    ∧ (aggregateFleetData mainFleet subFleets dE dY).forecastedEOYSpend
        = forecastEOYSpend
            (mainFleet.ytdSpend + (subFleets.map fun sf => sf.ytdSpend).sum)
            (calculateAverageDailyBurnRate
              (mainFleet.ytdSpend + (subFleets.map fun sf => sf.ytdSpend).sum) dE)
            dY := by
  have hne : subFleets.isEmpty = false := by
    cases subFleets with
    | nil => exact absurd rfl h
    | cons a l => rfl
  refine ⟨?_, ?_, ?_⟩ <;>
    simp only [aggregateFleetData, hne, Bool.false_eq_true, if_false,
      foldl_add_eq_sum_map, zero_add]

/-- Concrete main fleet for the C6 witness. -/
def sampleMainFleet : ForecastResult :=
  ⟨"8304669", "Main", 100, 30, 0, [], 0, 0, 0, false, 365, 31⟩

/-- Concrete sub-fleet for the C6 witness. -/
def sampleSubFleet : ForecastResult :=
  ⟨"8305082", "Sub", 50, 20, 0, [], 0, 0, 0, false, 365, 31⟩

/-- Witness for C6: the theorem applied to a concrete main fleet with one
sub-fleet. -/
theorem aggregate_recomputes_from_totals_witness :
    (aggregateFleetData sampleMainFleet [sampleSubFleet] 31 365).budget
        = sampleMainFleet.budget + ([sampleSubFleet].map fun sf => sf.budget).sum
    ∧ (aggregateFleetData sampleMainFleet [sampleSubFleet] 31 365).ytdSpend
        = sampleMainFleet.ytdSpend + ([sampleSubFleet].map fun sf => sf.ytdSpend).sum
    ∧ (aggregateFleetData sampleMainFleet [sampleSubFleet] 31 365).forecastedEOYSpend
        = forecastEOYSpend
            (sampleMainFleet.ytdSpend + ([sampleSubFleet].map fun sf => sf.ytdSpend).sum)
            (calculateAverageDailyBurnRate
              (sampleMainFleet.ytdSpend
                + ([sampleSubFleet].map fun sf => sf.ytdSpend).sum) 31)
            365 :=
  aggregate_recomputes_from_totals sampleMainFleet [sampleSubFleet] 31 365
    (List.cons_ne_nil _ _)

/-- Every `ensureAuthenticated` call issues at most one external login
check. -/
lemma ensureAuthenticated_loginChecks_le_one (st : Option ℤ) (now : ℤ)
    (nav : NavOutcome) (tr : AuthTrace)
    (h : ensureAuthenticated st now nav = Except.ok tr) : tr.loginChecks ≤ 1 := by
  unfold ensureAuthenticated at h
  split at h
  · injection h with h1; subst h1; simp
  · split at h
    · injection h with h1; subst h1; simp
    · injection h with h1; subst h1; simp

/-- C7.  If a first `ensureAuthenticated` call ends with a stored
timestamp `t`, and a second call happens while
`(now₂ - t) / (1000*60*60) < 12` (the 12-hour validity window), then the
second call short-circuits on the stored timestamp - it issues no login
check and leaves the timestamp unchanged - so the two calls issue at most
one external login check in total. -/
theorem session_short_circuit (st₀ : Option ℤ) (now₁ : ℤ) (nav₁ : NavOutcome)
    (now₂ : ℤ) (nav₂ : NavOutcome) (tr₁ : AuthTrace) (t : ℤ)
    (hcall : ensureAuthenticated st₀ now₁ nav₁ = Except.ok tr₁)
    (hwrote : tr₁.lastValidated = some t)
    (hwin : ((now₂ - t : ℤ) : ℚ) / (1000 * 60 * 60) < 12) :
    ensureAuthenticated tr₁.lastValidated now₂ nav₂
        = Except.ok ⟨tr₁.lastValidated, 0, false⟩
    ∧ tr₁.loginChecks + 0 ≤ 1 := by
  have hfresh : sessionIsFresh tr₁.lastValidated now₂ = true := by
    rw [hwrote]
    simp only [sessionIsFresh, sessionValidityHours, decide_eq_true_eq]
    exact hwin
  refine ⟨?_, ?_⟩
  · simp [ensureAuthenticated, hfresh]
  · simpa using ensureAuthenticated_loginChecks_le_one st₀ now₁ nav₁ tr₁ hcall

/-- Witness for C7: first call at time 0 (no stored timestamp, check
succeeds, writes `some 0`); second call one hour later short-circuits. -/
theorem session_short_circuit_witness :
    ensureAuthenticated (some 0) 3600000 (NavOutcome.page false true)
        = Except.ok ⟨some 0, 0, false⟩
    ∧ 1 + 0 ≤ 1 :=
  session_short_circuit none 0 (NavOutcome.page true false) 3600000
    (NavOutcome.page false true) ⟨some 0, 1, false⟩ 0 rfl rfl (by norm_num)

/-- C8, counterexample.  When the navigation inside the login check
throws (`NavOutcome.threw`) and no fresh timestamp exists, the call does
NOT propagate an error: `isLoggedIn` catches it and returns `false`, so
`ensureAuthenticated` returns normally (`isOk`), shows the manual-login
prompt, and writes a fresh `lastValidatedAt` timestamp. -/
theorem login_check_error_cex :
    (ensureAuthenticated none 0 NavOutcome.threw).isOk = true
    ∧ ensureAuthenticated none 0 NavOutcome.threw = Except.ok ⟨some 0, 1, true⟩ :=
  ⟨rfl, rfl⟩

/-- C8, amended.  A thrown login-check navigation error is swallowed
inside `isLoggedIn` (caught, logged, reported as logged-out); outside the
freshness window `ensureAuthenticated` then treats the session as
logged-out, prompts for manual login, and writes a fresh timestamp - the
error never reaches the caller. -/
theorem login_check_error_amended (st : Option ℤ) (now : ℤ)
    (h : sessionIsFresh st now = false) :
    ensureAuthenticated st now NavOutcome.threw = Except.ok ⟨some now, 1, true⟩ := by
  simp [ensureAuthenticated, h, isLoggedIn]

/-- Witness for C8 (amended): applied at an absent stored timestamp and
time 5. -/
theorem login_check_error_amended_witness :
    ensureAuthenticated none 5 NavOutcome.threw = Except.ok ⟨some 5, 1, true⟩ :=
  login_check_error_amended none 5 rfl

/-- The push-accumulating fold of the batch loop is `map`. -/
lemma foldl_push_eq_map {α β : Type} (f : α → β) :
    ∀ (l : List α) (acc : List β),
      l.foldl (fun a x => a ++ [f x]) acc = acc ++ l.map f
  | [], acc => by simp
  | x :: xs, acc => by
    simp only [List.foldl_cons, List.map_cons, foldl_push_eq_map f xs (acc ++ [f x])]
    simp

/-- A filtered list has positive length exactly when some element
satisfies the predicate. -/
lemma filter_length_pos_iff {α : Type} (p : α → Bool) :
    ∀ l : List α, (0 < (l.filter p).length ↔ ∃ a ∈ l, p a = true)
  | [] => by simp
  | x :: xs => by
    by_cases hx : p x = true
    · simp [List.filter_cons, hx]
    · simp [List.filter_cons, hx, filter_length_pos_iff p xs]

/-- C9.  The batch run produces exactly one entry per fleet id, in input
order, each depending only on that fleet's own extraction outcome (so one
fleet's failure cannot affect another's entry); a fleet whose extraction
throws gets exactly that fleet's failure entry; and the exit status is
nonzero iff at least one entry is a failure. -/
theorem batch_per_fleet_entries (fleetIds : List String)
    (scrape : String → Except String FleetScrapeData) :
    (testCerebusScraping fleetIds scrape).1 = fleetIds.map (batchEntryFor scrape)
    ∧ (testCerebusScraping fleetIds scrape).1.length = fleetIds.length
    ∧ ((testCerebusScraping fleetIds scrape).2 ≠ 0
        ↔ ∃ e ∈ (testCerebusScraping fleetIds scrape).1, e.isFailure = true)
    ∧ ∀ id err, (batchEntryFor scrape id = BatchEntry.failure id err
        ↔ scrape id = Except.error err) := by
  have key : ∀ L : ℕ, ((if L > 0 then 1 else 0 : ℕ) ≠ 0 ↔ 0 < L) := by
    intro L
    split <;> simp_all
  refine ⟨?_, ?_, ?_, ?_⟩
  · simp only [testCerebusScraping, foldl_push_eq_map, List.nil_append]
  · simp only [testCerebusScraping, foldl_push_eq_map, List.nil_append,
      List.length_map]
  · simp only [testCerebusScraping, foldl_push_eq_map, List.nil_append]
    rw [key, filter_length_pos_iff]
  · intro id err
    cases hscrape : scrape id with
    | ok d => simp [batchEntryFor, hscrape]
    | error e => simp [batchEntryFor, hscrape]

/-- C10, counterexample.  The empty string parses to `0`, yet
`extractYTDSpend` on an element list whose index-1 text is empty throws
(`"YTD Spend text is empty"`) instead of returning `0` with a warning:
the spend-side tolerance of zero parses does not extend to empty text. -/
theorem zero_parse_fatality_cex :
    parseCurrencyAmount "" = some 0
    ∧ (extractYTDSpend ["x", ""]).isOk = false := by
  decide

/-- C10, amended.  For element texts whose index-1 entry parses to `0`:
`extractIMRGoal` always throws (empty text hits the emptiness check,
non-empty zero-parsing text hits the `=== 0` check), while
`extractYTDSpend` returns `0` with a warning only when the trimmed text
is non-empty (empty spend text also throws). -/
theorem zero_parse_fatality_amended (t0 t1 : String) (rest : List String) :
    (parseCurrencyAmount (jsTrim t1) = some 0 →
      (extractIMRGoal (t0 :: t1 :: rest)).isOk = false)
    ∧ (jsTrim t1 ≠ "" → parseCurrencyAmount (jsTrim t1) = some 0 →
      extractYTDSpend (t0 :: t1 :: rest) = Except.ok (some 0, true)) := by
  have hlen : ¬(t0 :: t1 :: rest).length < 2 := by
    simp only [List.length_cons]
    omega
  have hget : (t0 :: t1 :: rest).getD 1 "" = t1 := rfl
  refine ⟨fun hp => ?_, fun hne hp => ?_⟩
  · simp only [extractIMRGoal, if_neg hlen, hget]
    by_cases ht : jsTrim t1 = ""
    · simp [ht, Except.isOk, Except.toBool]
    · simp [ht, hp, Except.isOk, Except.toBool]
  · simp only [extractYTDSpend, if_neg hlen, hget, if_neg hne, hp]
    simp

/-- Witness for C10 (amended): applied at texts `["x", "-"]`; `"-"`
parses to `0`, is fatal for the budget field, and yields a warned `0`
for the spend field. -/
theorem zero_parse_fatality_amended_witness :
    (extractIMRGoal ["x", "-"]).isOk = false
    ∧ extractYTDSpend ["x", "-"] = Except.ok (some 0, true) :=
  ⟨(zero_parse_fatality_amended "x" "-" []).1 (by decide),
   (zero_parse_fatality_amended "x" "-" []).2 (by decide) (by decide)⟩
